import Mathlib

/-!
Verification development for the Xidi controller-mapping engine.

This file gives a shallow embedding, in Lean 4, of the state-translation,
capability-derivation, force-feedback, registry and builder logic of the
Xidi virtual-controller engine (Source/Mapper.cpp together with the type
declarations in Include/Xidi/ControllerTypes.h, Include/Xidi/ElementMapper.h
and Include/Xidi/MapperBuilder.h), and proves the stated properties of that
logic.  Machine integers are modelled as Int with explicit saturation where
the code saturates; the floating-point force-feedback arithmetic is modelled
over the real numbers.
-/

namespace Xidi

/-- Enumeration of all supported virtual controller axes
(ControllerTypes.h, enum class EAxis). -/
inductive EAxis where
  | X
  | Y
  | Z
  | RotX
  | RotY
  | RotZ
deriving DecidableEq, Repr

/-- Ordinal value of an axis enumerator, which doubles as an array index. -/
def EAxis.idx : EAxis → Nat
  | .X => 0
  | .Y => 1
  | .Z => 2
  | .RotX => 3
  | .RotY => 4
  | .RotZ => 5

/-- All axis enumerators in ascending ordinal order. -/
def EAxis.allAxes : List EAxis := [.X, .Y, .Z, .RotX, .RotY, .RotZ]

/-- Enumeration of axis directions (ControllerTypes.h, enum class EAxisDirection). -/
inductive EAxisDirection where
  | Both
  | Positive
  | Negative
deriving DecidableEq, Repr

/-- Enumeration of POV directions (ControllerTypes.h, enum class EPovDirection). -/
inductive EPovDirection where
  | Up
  | Down
  | Left
  | Right
deriving DecidableEq, Repr

/-- Identifier for an element of a virtual controller's state
(ControllerTypes.h, struct SElementIdentifier).  The C++ struct is a tagged
union over EElementType; the Pov and WholeController tags carry no payload,
exactly as the structural equality operator of the struct treats them. -/
inductive SElementIdentifier where
  | axis (a : EAxis)
  | button (b : Fin 16)
  | pov
  | wholeController
deriving DecidableEq, Repr

/-- Maximum possible analog stick reading (ControllerTypes.h, kAnalogValueMax). -/
def kAnalogValueMax : Int := 32767

/-- Minimum analog reading used by the virtual model, symmetric around zero
(ControllerTypes.h, kAnalogValueMin).  Slightly narrower than the physical
XInput range, which extends down to -32768. -/
def kAnalogValueMin : Int := -kAnalogValueMax

/-- Neutral analog value (ControllerTypes.h, kAnalogValueNeutral). -/
def kAnalogValueNeutral : Int := (kAnalogValueMax + kAnalogValueMin) / 2

/-- Maximum trigger reading (ControllerTypes.h, kTriggerValueMax). -/
def kTriggerValueMax : Int := 255

/-- Minimum trigger reading (ControllerTypes.h, kTriggerValueMin). -/
def kTriggerValueMin : Int := 0

/-- Native data format for virtual controllers (ControllerTypes.h, struct
SState): one signed value per axis, one boolean per button, one boolean per
POV direction. -/
structure SState where
  axis : EAxis → Int
  button : Fin 16 → Bool
  povDirection : EPovDirection → Bool

/-- The zero-initialized virtual controller state, corresponding to the
aggregate initialization SState controllerState = {} in Mapper.cpp. -/
def SState.zero : SState :=
  { axis := fun _ => 0, button := fun _ => false, povDirection := fun _ => false }

/-- Interface for mapping one physical element reading into virtual state
(ElementMapper.h, class IElementMapper).  The concrete implementations are
polymorphic C++ classes; the interface is modelled extensionally as the
bundle of contribution functions that a concrete element mapper provides.
Analog readings are signed 16-bit values and trigger readings unsigned
8-bit values in the source; they are modelled as Int and Nat. -/
structure IElementMapper where
  contributeFromAnalogValue : SState → Int → SState
  contributeFromButtonValue : SState → Bool → SState
  contributeFromTriggerValue : SState → Nat → SState

/-- Per-physical-element table of optional element mappers, mirroring the
named view of Mapper::UElementMap used by Mapper::MapStatePhysicalToVirtual
(one slot per named physical element, null meaning no mapper assigned). -/
structure SElementMap where
  stickLeftX : Option IElementMapper
  stickLeftY : Option IElementMapper
  stickRightX : Option IElementMapper
  stickRightY : Option IElementMapper
  dpadUp : Option IElementMapper
  dpadDown : Option IElementMapper
  dpadLeft : Option IElementMapper
  dpadRight : Option IElementMapper
  triggerLT : Option IElementMapper
  triggerRT : Option IElementMapper
  buttonA : Option IElementMapper
  buttonB : Option IElementMapper
  buttonX : Option IElementMapper
  buttonY : Option IElementMapper
  buttonLB : Option IElementMapper
  buttonRB : Option IElementMapper
  buttonBack : Option IElementMapper
  buttonStart : Option IElementMapper
  buttonLS : Option IElementMapper
  buttonRS : Option IElementMapper

/-- The all-absent element map (every slot null). -/
def SElementMap.empty : SElementMap :=
  { stickLeftX := none, stickLeftY := none, stickRightX := none, stickRightY := none,
    dpadUp := none, dpadDown := none, dpadLeft := none, dpadRight := none,
    triggerLT := none, triggerRT := none,
    buttonA := none, buttonB := none, buttonX := none, buttonY := none,
    buttonLB := none, buttonRB := none, buttonBack := none, buttonStart := none,
    buttonLS := none, buttonRS := none }

/-- Physical gamepad reading (xinput.h, struct XINPUT_GAMEPAD): a button
bitmask, two unsigned 8-bit trigger values and four signed 16-bit stick
values. -/
structure XINPUT_GAMEPAD where
  wButtons : Nat
  bLeftTrigger : Nat
  bRightTrigger : Nat
  sThumbLX : Int
  sThumbLY : Int
  sThumbRX : Int
  sThumbRY : Int

/-- Button bitmask constant from xinput.h. -/
def XINPUT_GAMEPAD_DPAD_UP : Nat := 0x0001

/-- Button bitmask constant from xinput.h. -/
def XINPUT_GAMEPAD_DPAD_DOWN : Nat := 0x0002

/-- Button bitmask constant from xinput.h. -/
def XINPUT_GAMEPAD_DPAD_LEFT : Nat := 0x0004

/-- Button bitmask constant from xinput.h. -/
def XINPUT_GAMEPAD_DPAD_RIGHT : Nat := 0x0008

/-- Button bitmask constant from xinput.h. -/
def XINPUT_GAMEPAD_START : Nat := 0x0010

/-- Button bitmask constant from xinput.h. -/
def XINPUT_GAMEPAD_BACK : Nat := 0x0020

/-- Button bitmask constant from xinput.h. -/
def XINPUT_GAMEPAD_LEFT_THUMB : Nat := 0x0040

/-- Button bitmask constant from xinput.h. -/
def XINPUT_GAMEPAD_RIGHT_THUMB : Nat := 0x0080

/-- Button bitmask constant from xinput.h. -/
def XINPUT_GAMEPAD_LEFT_SHOULDER : Nat := 0x0100

/-- Button bitmask constant from xinput.h. -/
def XINPUT_GAMEPAD_RIGHT_SHOULDER : Nat := 0x0200

/-- Button bitmask constant from xinput.h. -/
def XINPUT_GAMEPAD_A : Nat := 0x1000

/-- Button bitmask constant from xinput.h. -/
def XINPUT_GAMEPAD_B : Nat := 0x2000

/-- Button bitmask constant from xinput.h. -/
def XINPUT_GAMEPAD_X : Nat := 0x4000

/-- Button bitmask constant from xinput.h. -/
def XINPUT_GAMEPAD_Y : Nat := 0x8000

/-- Test of one button bit of the physical reading, modelling the expression
(0 != (physicalState.wButtons AND mask)) from Mapper.cpp. -/
def wButtonPressed (physicalState : XINPUT_GAMEPAD) (mask : Nat) : Bool :=
  0 != (physicalState.wButtons &&& mask)

/-- Saturating filter for analog stick values (Mapper.cpp,
FilterAnalogStickValue): clamps a raw reading into the virtual controller
range. -/
def FilterAnalogStickValue (analogValue : Int) : Int :=
  if analogValue > kAnalogValueMax then kAnalogValueMax
  else if analogValue < kAnalogValueMin then kAnalogValueMin
  else analogValue

/-- Filter and inversion for analog stick values (Mapper.cpp,
FilterAndInvertAnalogStickValue): the negation of the saturated value, used
for XInput axes whose polarity is opposite that of the virtual controller. -/
def FilterAndInvertAnalogStickValue (analogValue : Int) : Int :=
  -FilterAnalogStickValue analogValue

/-- Guarded analog contribution, modelling the pattern
if (nullptr != mapper) mapper->ContributeFromAnalogValue(state, value)
from Mapper::MapStatePhysicalToVirtual. -/
def contribAnalog (m : Option IElementMapper) (s : SState) (v : Int) : SState :=
  match m with
  | none => s
  | some em => em.contributeFromAnalogValue s v

/-- Guarded button contribution, modelling the pattern
if (nullptr != mapper) mapper->ContributeFromButtonValue(state, value). -/
def contribButton (m : Option IElementMapper) (s : SState) (v : Bool) : SState :=
  match m with
  | none => s
  | some em => em.contributeFromButtonValue s v

/-- Guarded trigger contribution, modelling the pattern
if (nullptr != mapper) mapper->ContributeFromTriggerValue(state, value). -/
def contribTrigger (m : Option IElementMapper) (s : SState) (v : Nat) : SState :=
  match m with
  | none => s
  | some em => em.contributeFromTriggerValue s v

/-- Final saturation pass of Mapper::MapStatePhysicalToVirtual: every axis
value is clamped to the extreme ends of the allowed range (the loop over
controllerState.axis at the end of the function). -/
def saturateAxes (s : SState) : SState :=
  { s with axis := fun a =>
      if s.axis a > kAnalogValueMax then kAnalogValueMax
      else if s.axis a < kAnalogValueMin then kAnalogValueMin
      else s.axis a }

/-- Translation of one physical gamepad reading into virtual controller
state (Mapper.cpp, Mapper::MapStatePhysicalToVirtual): each assigned element
mapper is fed the corresponding physical field, stick values after
saturation (and inversion for the vertical stick axes), and the accumulated
state is saturated per axis at the end. -/
def MapStatePhysicalToVirtual (elements : SElementMap) (physicalState : XINPUT_GAMEPAD) : SState :=
  let s0 : SState := SState.zero
  let s1 := contribAnalog elements.stickLeftX s0 (FilterAnalogStickValue physicalState.sThumbLX)
  let s2 := contribAnalog elements.stickLeftY s1 (FilterAndInvertAnalogStickValue physicalState.sThumbLY)
  let s3 := contribAnalog elements.stickRightX s2 (FilterAnalogStickValue physicalState.sThumbRX)
  let s4 := contribAnalog elements.stickRightY s3 (FilterAndInvertAnalogStickValue physicalState.sThumbRY)
  let s5 := contribButton elements.dpadUp s4 (wButtonPressed physicalState XINPUT_GAMEPAD_DPAD_UP)
  let s6 := contribButton elements.dpadDown s5 (wButtonPressed physicalState XINPUT_GAMEPAD_DPAD_DOWN)
  let s7 := contribButton elements.dpadLeft s6 (wButtonPressed physicalState XINPUT_GAMEPAD_DPAD_LEFT)
  let s8 := contribButton elements.dpadRight s7 (wButtonPressed physicalState XINPUT_GAMEPAD_DPAD_RIGHT)
  let s9 := contribTrigger elements.triggerLT s8 physicalState.bLeftTrigger
  let s10 := contribTrigger elements.triggerRT s9 physicalState.bRightTrigger
  let s11 := contribButton elements.buttonA s10 (wButtonPressed physicalState XINPUT_GAMEPAD_A)
  let s12 := contribButton elements.buttonB s11 (wButtonPressed physicalState XINPUT_GAMEPAD_B)
  let s13 := contribButton elements.buttonX s12 (wButtonPressed physicalState XINPUT_GAMEPAD_X)
  let s14 := contribButton elements.buttonY s13 (wButtonPressed physicalState XINPUT_GAMEPAD_Y)
  let s15 := contribButton elements.buttonLB s14 (wButtonPressed physicalState XINPUT_GAMEPAD_LEFT_SHOULDER)
  let s16 := contribButton elements.buttonRB s15 (wButtonPressed physicalState XINPUT_GAMEPAD_RIGHT_SHOULDER)
  let s17 := contribButton elements.buttonBack s16 (wButtonPressed physicalState XINPUT_GAMEPAD_BACK)
  let s18 := contribButton elements.buttonStart s17 (wButtonPressed physicalState XINPUT_GAMEPAD_START)
  let s19 := contribButton elements.buttonLS s18 (wButtonPressed physicalState XINPUT_GAMEPAD_LEFT_THUMB)
  let s20 := contribButton elements.buttonRS s19 (wButtonPressed physicalState XINPUT_GAMEPAD_RIGHT_THUMB)
  saturateAxes s20

/-- Unfolded value of the maximum analog constant. -/
theorem kAnalogValueMax_eq : kAnalogValueMax = 32767 := rfl

/-- Unfolded value of the minimum analog constant. -/
theorem kAnalogValueMin_eq : kAnalogValueMin = -32767 := rfl

/-- Saturation yields values inside the closed symmetric range. -/
theorem saturateAxes_axis_mem (s : SState) (a : EAxis) :
    -32767 ≤ (saturateAxes s).axis a ∧ (saturateAxes s).axis a ≤ 32767 := by
  simp only [saturateAxes, kAnalogValueMin_eq, kAnalogValueMax_eq]
  split_ifs <;> omega

/-- C1: for every element-mapper table and every physical gamepad reading,
including extreme inputs such as a stick value of -32768, every one of the
six axis values of the state returned by Mapper::MapStatePhysicalToVirtual
lies in the closed range [-32767, 32767] (saturation, not wrap). -/
theorem mapStatePhysicalToVirtual_axis_saturated
    (elements : SElementMap) (physicalState : XINPUT_GAMEPAD) (a : EAxis) :
    -32767 ≤ (MapStatePhysicalToVirtual elements physicalState).axis a ∧
      (MapStatePhysicalToVirtual elements physicalState).axis a ≤ 32767 := by
  unfold MapStatePhysicalToVirtual
  exact saturateAxes_axis_mem _ a

/-- Observer element mapper that records its analog input verbatim into one
chosen axis of the virtual state; trigger and button contributions leave the
state unchanged.  Used to observe exactly which analog value
Mapper::MapStatePhysicalToVirtual delivers to an assigned element mapper. -/
def axisRecorder (a : EAxis) : IElementMapper :=
  { contributeFromAnalogValue := fun s v => { s with axis := fun x => if x = a then v else s.axis x },
    contributeFromButtonValue := fun s _ => s,
    contributeFromTriggerValue := fun s _ => s }

/-- C4: every stick reading is saturated into [-32767, 32767] before being
handed to its element mapper, the two vertical stick readings (left Y and
right Y) are delivered as the negation of the saturated reading (so a
physical -32768 on a vertical stick is delivered as +32767), and the
horizontal stick readings are delivered un-negated.  Delivery is observed by
installing a recording element mapper in exactly one stick slot; because the
delivered value always lies inside the symmetric range, the final saturation
pass leaves the recorded value unchanged. -/
theorem stick_values_filtered_and_inverted (physicalState : XINPUT_GAMEPAD) :
    (MapStatePhysicalToVirtual { SElementMap.empty with stickLeftY := some (axisRecorder .Z) } physicalState).axis .Z
        = -(max (-32767) (min 32767 physicalState.sThumbLY)) ∧
    (MapStatePhysicalToVirtual { SElementMap.empty with stickRightY := some (axisRecorder .Z) } physicalState).axis .Z
        = -(max (-32767) (min 32767 physicalState.sThumbRY)) ∧
    (MapStatePhysicalToVirtual { SElementMap.empty with stickLeftX := some (axisRecorder .Z) } physicalState).axis .Z
        = max (-32767) (min 32767 physicalState.sThumbLX) ∧
    (MapStatePhysicalToVirtual { SElementMap.empty with stickRightX := some (axisRecorder .Z) } physicalState).axis .Z
        = max (-32767) (min 32767 physicalState.sThumbRX) ∧
    (MapStatePhysicalToVirtual { SElementMap.empty with stickLeftY := some (axisRecorder .Z) }
        { wButtons := 0, bLeftTrigger := 0, bRightTrigger := 0,
          sThumbLX := 0, sThumbLY := -32768, sThumbRX := 0, sThumbRY := 0 }).axis .Z = 32767 := by
  refine ⟨?_, ?_, ?_, ?_, ?_⟩ <;>
    · simp only [MapStatePhysicalToVirtual, SElementMap.empty, contribAnalog, contribButton,
        contribTrigger, axisRecorder, saturateAxes, SState.zero, FilterAndInvertAnalogStickValue,
        FilterAnalogStickValue, kAnalogValueMax_eq, kAnalogValueMin_eq]
      split_ifs <;> simp_all <;> omega

/-- Result of enumerating the target elements of one element mapper through
GetTargetElementCount and GetTargetElementAt (ElementMapper.h): a finite
sequence of optional element identifiers, one per index below the count. -/
abbrev TargetList := List (Option SElementIdentifier)

/-- Payload of a single-axis force feedback actuator binding: the bound
virtual axis, optionally restricted to one direction.  Modelled from the
spec: the declaring header ForceFeedbackTypes.h is not among the available
sources; field names follow their uses in Mapper.cpp. -/
structure SingleAxisPayload where
  axis : EAxis
  direction : EAxisDirection

/-- Payload of a magnitude-projection force feedback actuator binding: the
two bound virtual axes.  Modelled from the spec: the declaring header
ForceFeedbackTypes.h is not among the available sources; field names follow
their uses in Mapper.cpp. -/
structure MagnitudeProjectionPayload where
  axisFirst : EAxis
  axisSecond : EAxis

/-- Force feedback actuator modes.  Modelled from the spec: either bound to
a single virtual axis or to two virtual axes combined by vector-magnitude
projection (the declaring header ForceFeedbackTypes.h is not among the
available sources). -/
inductive EActuatorMode where
  | SingleAxis
  | MagnitudeProjection
deriving DecidableEq, Repr

/-- Force feedback actuator assignment for one physical actuator.  Modelled
from the spec: either absent, or bound per one of the two actuator modes
(the declaring header ForceFeedbackTypes.h is not among the available
sources; the C++ union holding the two payloads is modelled as two fields,
of which only the mode-selected one is ever read). -/
structure SActuatorElement where
  isPresent : Bool
  mode : EActuatorMode
  singleAxis : SingleAxisPayload
  magnitudeProjection : MagnitudeProjectionPayload

/-- Capabilities of a single virtual controller axis (ControllerTypes.h,
struct SAxisCapabilities). -/
structure SAxisCapabilities where
  type : EAxis
  supportsForceFeedback : Bool
deriving DecidableEq, Repr

/-- Capabilities of a virtual controller (ControllerTypes.h, struct
SCapabilities).  The C++ struct stores a fixed array together with a count
of valid entries and compares only the valid prefix; the meaningful content
is that prefix, modelled as a list. -/
structure SCapabilities where
  axisCapabilities : List SAxisCapabilities
  numButtons : Int
  hasPov : Bool
deriving DecidableEq, Repr

/-- Platform-mandated minimum capabilities used to seed capability
derivation.  Modelled from the spec: the constants kRequiredAxes,
kRequiredForceFeedbackAxes, kMinNumButtons and kIsPovRequired are declared
in Mapper.h, which is not among the available sources, so they are kept as
parameters (a fixed minimum set, possibly empty). -/
structure RequiredCaps where
  requiredAxes : EAxis → Bool
  requiredForceFeedbackAxes : EAxis → Bool
  minNumButtons : Nat
  isPovRequired : Bool

/-- Insertion into a set of axes represented by its indicator function,
modelling BitSetEnum insert. -/
def insertAxis (f : EAxis → Bool) (a : EAxis) : EAxis → Bool :=
  fun x => if x = a then true else f x

/-- Accumulator of the element-mapper scanning loop of
DeriveCapabilitiesFromElementMap: present-axis set, highest button ordinal
seen so far, POV presence flag. -/
structure ScanState where
  axesPresent : EAxis → Bool
  highestButtonSeen : Int
  povPresent : Bool

/-- One step of the inner target loop of DeriveCapabilitiesFromElementMap
(Mapper.cpp): a missing optional target is skipped, an axis target is added
to the present-axis set, a button target raises the highest button seen, a
POV target sets the POV flag, and a whole-controller target has no case in
the switch statement. -/
def scanTarget (s : ScanState) (t : Option SElementIdentifier) : ScanState :=
  match t with
  | none => s
  | some (.axis a) => { s with axesPresent := insertAxis s.axesPresent a }
  | some (.button b) =>
      if (b.val : Int) > s.highestButtonSeen then { s with highestButtonSeen := (b.val : Int) }
      else s
  | some .pov => { s with povPresent := true }
  | some .wholeController => s

/-- One step of the outer element loop of DeriveCapabilitiesFromElementMap:
a null element mapper is skipped, otherwise all its targets are scanned. -/
def scanElement (s : ScanState) (e : Option TargetList) : ScanState :=
  match e with
  | none => s
  | some ts => ts.foldl scanTarget s

/-- Accumulator of the actuator scanning loop of
DeriveCapabilitiesFromElementMap: present-axis set and force-feedback-axis
set. -/
structure FFScanState where
  axesPresent : EAxis → Bool
  axesForceFeedback : EAxis → Bool

/-- One step of the actuator loop of DeriveCapabilitiesFromElementMap: an
absent actuator is skipped, a single-axis actuator adds its bound axis to
both sets, a magnitude-projection actuator adds both bound axes to both
sets. -/
def scanActuator (s : FFScanState) (act : SActuatorElement) : FFScanState :=
  if act.isPresent then
    match act.mode with
    | .SingleAxis =>
        { axesPresent := insertAxis s.axesPresent act.singleAxis.axis,
          axesForceFeedback := insertAxis s.axesForceFeedback act.singleAxis.axis }
    | .MagnitudeProjection =>
        { axesPresent :=
            insertAxis (insertAxis s.axesPresent act.magnitudeProjection.axisFirst)
              act.magnitudeProjection.axisSecond,
          axesForceFeedback :=
            insertAxis (insertAxis s.axesForceFeedback act.magnitudeProjection.axisFirst)
              act.magnitudeProjection.axisSecond }
  else s

/-- Capability derivation (Mapper.cpp, DeriveCapabilitiesFromElementMap):
seed the present-axis and force-feedback-axis sets and the button and POV
minima with the platform-mandated values, scan every element mapper target
and every present actuator, then emit the present axes in ascending
enumerator order (BitSetEnum iterates in ascending bit order), the button
count as one plus the highest button ordinal seen, and the POV flag. -/
def DeriveCapabilitiesFromElementMap (req : RequiredCaps)
    (elements : List (Option TargetList))
    (forceFeedbackActuators : List SActuatorElement) : SCapabilities :=
  let s0 : ScanState :=
    { axesPresent := req.requiredAxes,
      highestButtonSeen := (req.minNumButtons : Int) - 1,
      povPresent := req.isPovRequired }
  let s1 := elements.foldl scanElement s0
  let f0 : FFScanState :=
    { axesPresent := s1.axesPresent, axesForceFeedback := req.requiredForceFeedbackAxes }
  let f1 := forceFeedbackActuators.foldl scanActuator f0
  { axisCapabilities :=
      (EAxis.allAxes.filter (fun a => f1.axesPresent a)).map
        (fun a => { type := a, supportsForceFeedback := f1.axesForceFeedback a }),
    numButtons := s1.highestButtonSeen + 1,
    hasPov := s1.povPresent }

/-- Specification-side predicate: some element mapper in the table targets
the given axis. -/
def axisTargeted (elements : List (Option TargetList)) (a : EAxis) : Bool :=
  elements.any fun e =>
    match e with
    | none => false
    | some ts => ts.any (fun t => t = some (.axis a))

/-- Specification-side predicate: some element mapper in the table targets
the given button. -/
def buttonTargeted (elements : List (Option TargetList)) (b : Fin 16) : Bool :=
  elements.any fun e =>
    match e with
    | none => false
    | some ts => ts.any (fun t => t = some (.button b))

/-- Specification-side predicate: some element mapper in the table targets
a POV direction. -/
def povTargeted (elements : List (Option TargetList)) : Bool :=
  elements.any fun e =>
    match e with
    | none => false
    | some ts => ts.any (fun t => t = some .pov)

/-- Specification-side predicate: some present actuator binds the given
axis, either as its single bound axis or as one of its two
magnitude-projection axes. -/
def actuatorBinds (actuators : List SActuatorElement) (a : EAxis) : Bool :=
  actuators.any fun act =>
    act.isPresent &&
      (match act.mode with
       | .SingleAxis => act.singleAxis.axis = a
       | .MagnitudeProjection =>
           act.magnitudeProjection.axisFirst = a || act.magnitudeProjection.axisSecond = a)

/-- Every axis enumerator occurs in the ascending enumeration. -/
theorem EAxis.mem_allAxes (a : EAxis) : a ∈ EAxis.allAxes := by
  cases a <;> decide

/-- One scan step never lowers the highest button seen. -/
theorem scanTarget_highest_le (s : ScanState) (t : Option SElementIdentifier) :
    s.highestButtonSeen ≤ (scanTarget s t).highestButtonSeen := by
  cases t with
  | none => exact le_refl _
  | some e =>
    cases e with
    | axis a => exact le_refl _
    | button b =>
      simp only [scanTarget]
      split_ifs with hgt
      · show s.highestButtonSeen ≤ (b.val : Int)
        omega
      · exact le_refl _
    | pov => exact le_refl _
    | wholeController => exact le_refl _

/-- Pointwise value of an axis-set insertion. -/
theorem insertAxis_apply (f : EAxis → Bool) (y x : EAxis) :
    insertAxis f y x = (f x || decide (y = x)) := by
  by_cases h : x = y
  · subst h; simp [insertAxis]
  · have h2 : ¬ y = x := fun h3 => h h3.symm
    simp [insertAxis, h, h2]

/-- One scan step changes no field other than the one its target selects:
the axis set after a step. -/
theorem scanTarget_axesPresent (s : ScanState) (t : Option SElementIdentifier) (a : EAxis) :
    (scanTarget s t).axesPresent a
      = (s.axesPresent a || decide (t = some (.axis a))) := by
  cases t with
  | none => simp [scanTarget]
  | some e =>
    cases e with
    | axis x => simp [scanTarget, insertAxis_apply]
    | button b => simp only [scanTarget]; split_ifs <;> simp
    | pov => simp [scanTarget]
    | wholeController => simp [scanTarget]

/-- The POV flag after one scan step. -/
theorem scanTarget_pov (s : ScanState) (t : Option SElementIdentifier) :
    (scanTarget s t).povPresent = (s.povPresent || decide (t = some .pov)) := by
  cases t with
  | none => simp [scanTarget]
  | some e =>
    cases e with
    | axis x => simp [scanTarget]
    | button b => simp only [scanTarget]; split_ifs <;> simp
    | pov => simp [scanTarget]
    | wholeController => simp [scanTarget]

/-- The axis set accumulated over a whole target list. -/
theorem foldl_scanTarget_axesPresent (ts : TargetList) (s : ScanState) (a : EAxis) :
    (ts.foldl scanTarget s).axesPresent a
      = (s.axesPresent a || ts.any (fun t => t = some (.axis a))) := by
  induction ts generalizing s with
  | nil => simp
  | cons t ts ih =>
    simp only [List.foldl_cons, List.any_cons, ih, scanTarget_axesPresent]
    cases s.axesPresent a <;> simp [Bool.or_assoc]

/-- The POV flag accumulated over a whole target list. -/
theorem foldl_scanTarget_pov (ts : TargetList) (s : ScanState) :
    (ts.foldl scanTarget s).povPresent
      = (s.povPresent || ts.any (fun t => t = some .pov)) := by
  induction ts generalizing s with
  | nil => simp
  | cons t ts ih =>
    simp only [List.foldl_cons, List.any_cons, ih, scanTarget_pov]
    cases s.povPresent <;> simp [Bool.or_assoc]

/-- Scanning a target list never lowers the highest button seen. -/
theorem foldl_scanTarget_highest_le (ts : TargetList) (s : ScanState) :
    s.highestButtonSeen ≤ (ts.foldl scanTarget s).highestButtonSeen := by
  induction ts generalizing s with
  | nil => exact le_refl _
  | cons t ts ih =>
    exact le_trans (scanTarget_highest_le s t) (ih (scanTarget s t))

/-- Every button targeted in a target list is bounded by the accumulated
highest button seen. -/
theorem foldl_scanTarget_highest_bound (ts : TargetList) (s : ScanState) (b : Fin 16)
    (h : ts.any (fun t => t = some (.button b)) = true) :
    (b.val : Int) ≤ (ts.foldl scanTarget s).highestButtonSeen := by
  induction ts generalizing s with
  | nil => simp at h
  | cons t ts ih =>
    simp only [List.any_cons, Bool.or_eq_true, decide_eq_true_eq] at h
    cases h with
    | inl h =>
      subst h
      refine le_trans ?_ (foldl_scanTarget_highest_le ts _)
      simp only [scanTarget]
      split_ifs with hgt
      · show (b.val : Int) ≤ (b.val : Int)
        exact le_refl _
      · omega
    | inr h => exact ih (scanTarget s t) (by simpa using h)

/-- The accumulated highest button seen is either the seed or the ordinal of
some targeted button. -/
theorem foldl_scanTarget_highest_cases (ts : TargetList) (s : ScanState) :
    (ts.foldl scanTarget s).highestButtonSeen = s.highestButtonSeen ∨
      ∃ b : Fin 16, ts.any (fun t => t = some (.button b)) = true ∧
        (ts.foldl scanTarget s).highestButtonSeen = (b.val : Int) := by
  induction ts generalizing s with
  | nil => exact Or.inl rfl
  | cons t ts ih =>
    rcases ih (scanTarget s t) with h | ⟨b, hb, he⟩
    · rw [List.foldl_cons]
      cases t with
      | none => exact Or.inl h
      | some e =>
        cases e with
        | axis a => exact Or.inl h
        | button b =>
          by_cases hgt : (b.val : Int) > s.highestButtonSeen
          · refine Or.inr ⟨b, by simp, ?_⟩
            rw [h]
            simp [scanTarget, hgt]
          · left
            rw [h]
            simp [scanTarget, hgt]
        | pov => exact Or.inl h
        | wholeController => exact Or.inl h
    · exact Or.inr ⟨b, by simp [hb], by rw [List.foldl_cons]; exact he⟩

/-- The axis set accumulated over the whole element table. -/
theorem foldl_scanElement_axesPresent (elements : List (Option TargetList)) (s : ScanState) (a : EAxis) :
    (elements.foldl scanElement s).axesPresent a
      = (s.axesPresent a || axisTargeted elements a) := by
  induction elements generalizing s with
  | nil => simp [axisTargeted]
  | cons e es ih =>
    simp only [List.foldl_cons, ih, axisTargeted, List.any_cons]
    cases e with
    | none => simp [scanElement, axisTargeted]
    | some ts =>
      simp only [scanElement, foldl_scanTarget_axesPresent, axisTargeted]
      cases s.axesPresent a <;> simp [Bool.or_assoc]

/-- The POV flag accumulated over the whole element table. -/
theorem foldl_scanElement_pov (elements : List (Option TargetList)) (s : ScanState) :
    (elements.foldl scanElement s).povPresent = (s.povPresent || povTargeted elements) := by
  induction elements generalizing s with
  | nil => simp [povTargeted]
  | cons e es ih =>
    simp only [List.foldl_cons, ih, povTargeted, List.any_cons]
    cases e with
    | none => simp [scanElement, povTargeted]
    | some ts =>
      simp only [scanElement, foldl_scanTarget_pov, povTargeted]
      cases s.povPresent <;> simp [Bool.or_assoc]

/-- Scanning the element table never lowers the highest button seen. -/
theorem foldl_scanElement_highest_le (elements : List (Option TargetList)) (s : ScanState) :
    s.highestButtonSeen ≤ (elements.foldl scanElement s).highestButtonSeen := by
  induction elements generalizing s with
  | nil => exact le_refl _
  | cons e es ih =>
    refine le_trans ?_ (ih (scanElement s e))
    cases e with
    | none => exact le_refl _
    | some ts => exact foldl_scanTarget_highest_le ts s

/-- Every button targeted in the element table is bounded by the accumulated
highest button seen. -/
theorem foldl_scanElement_highest_bound (elements : List (Option TargetList)) (s : ScanState)
    (b : Fin 16) (h : buttonTargeted elements b = true) :
    (b.val : Int) ≤ (elements.foldl scanElement s).highestButtonSeen := by
  induction elements generalizing s with
  | nil => simp [buttonTargeted] at h
  | cons e es ih =>
    simp only [buttonTargeted, List.any_cons, Bool.or_eq_true] at h
    cases h with
    | inl h =>
      refine le_trans ?_ (foldl_scanElement_highest_le es _)
      cases e with
      | none => simp at h
      | some ts => exact foldl_scanTarget_highest_bound ts s b (by simpa using h)
    | inr h => exact ih (scanElement s e) (by simpa [buttonTargeted] using h)

/-- The accumulated highest button seen over the element table is either the
seed or the ordinal of some targeted button. -/
theorem foldl_scanElement_highest_cases (elements : List (Option TargetList)) (s : ScanState) :
    (elements.foldl scanElement s).highestButtonSeen = s.highestButtonSeen ∨
      ∃ b : Fin 16, buttonTargeted elements b = true ∧
        (elements.foldl scanElement s).highestButtonSeen = (b.val : Int) := by
  induction elements generalizing s with
  | nil => exact Or.inl rfl
  | cons e es ih =>
    rcases ih (scanElement s e) with h | ⟨b, hb, he⟩
    · rw [List.foldl_cons]
      cases e with
      | none => exact Or.inl h
      | some ts =>
        rcases foldl_scanTarget_highest_cases ts s with h2 | ⟨b, hb, he⟩
        · left; rw [h]; exact h2
        · refine Or.inr ⟨b, ?_, by rw [h]; exact he⟩
          simp [buttonTargeted, List.any_cons]
          exact Or.inl (by simpa using hb)
    · refine Or.inr ⟨b, ?_, by rw [List.foldl_cons]; exact he⟩
      simp only [buttonTargeted, List.any_cons, Bool.or_eq_true]
      exact Or.inr (by simpa [buttonTargeted] using hb)

/-- The axis contribution of one actuator scan step. -/
theorem scanActuator_axesPresent (f : FFScanState) (act : SActuatorElement) (a : EAxis) :
    (scanActuator f act).axesPresent a
      = (f.axesPresent a ||
          (act.isPresent &&
            (match act.mode with
             | .SingleAxis => decide (act.singleAxis.axis = a)
             | .MagnitudeProjection =>
                 decide (act.magnitudeProjection.axisFirst = a) ||
                   decide (act.magnitudeProjection.axisSecond = a)))) := by
  cases hp : act.isPresent with
  | false => simp [scanActuator, hp]
  | true =>
    cases hm : act.mode with
    | SingleAxis => simp [scanActuator, hp, hm, insertAxis_apply]
    | MagnitudeProjection => simp [scanActuator, hp, hm, insertAxis_apply, Bool.or_assoc]

/-- The force-feedback contribution of one actuator scan step. -/
theorem scanActuator_axesForceFeedback (f : FFScanState) (act : SActuatorElement) (a : EAxis) :
    (scanActuator f act).axesForceFeedback a
      = (f.axesForceFeedback a ||
          (act.isPresent &&
            (match act.mode with
             | .SingleAxis => decide (act.singleAxis.axis = a)
             | .MagnitudeProjection =>
                 decide (act.magnitudeProjection.axisFirst = a) ||
                   decide (act.magnitudeProjection.axisSecond = a)))) := by
  cases hp : act.isPresent with
  | false => simp [scanActuator, hp]
  | true =>
    cases hm : act.mode with
    | SingleAxis => simp [scanActuator, hp, hm, insertAxis_apply]
    | MagnitudeProjection => simp [scanActuator, hp, hm, insertAxis_apply, Bool.or_assoc]

/-- The present-axis set accumulated over the actuator table. -/
theorem foldl_scanActuator_axesPresent (actuators : List SActuatorElement) (f : FFScanState) (a : EAxis) :
    (actuators.foldl scanActuator f).axesPresent a
      = (f.axesPresent a || actuatorBinds actuators a) := by
  induction actuators generalizing f with
  | nil => simp [actuatorBinds]
  | cons act acts ih =>
    simp only [List.foldl_cons, ih, actuatorBinds, List.any_cons, scanActuator_axesPresent]
    cases f.axesPresent a <;> simp [Bool.or_assoc, actuatorBinds]

/-- The force-feedback-axis set accumulated over the actuator table. -/
theorem foldl_scanActuator_axesForceFeedback (actuators : List SActuatorElement) (f : FFScanState) (a : EAxis) :
    (actuators.foldl scanActuator f).axesForceFeedback a
      = (f.axesForceFeedback a || actuatorBinds actuators a) := by
  induction actuators generalizing f with
  | nil => simp [actuatorBinds]
  | cons act acts ih =>
    simp only [List.foldl_cons, ih, actuatorBinds, List.any_cons, scanActuator_axesForceFeedback]
    cases f.axesForceFeedback a <;> simp [Bool.or_assoc, actuatorBinds]

/-- Closed form of the derived axis capability list: the axes passing the
combined presence predicate, in ascending enumeration order, flagged by the
combined force feedback predicate. -/
theorem derive_axisCapabilities (req : RequiredCaps) (elements : List (Option TargetList))
    (actuators : List SActuatorElement) :
    (DeriveCapabilitiesFromElementMap req elements actuators).axisCapabilities
      = (EAxis.allAxes.filter
          (fun a => req.requiredAxes a || axisTargeted elements a || actuatorBinds actuators a)).map
          (fun a =>
            { type := a,
              supportsForceFeedback :=
                req.requiredForceFeedbackAxes a || actuatorBinds actuators a }) := by
  simp only [DeriveCapabilitiesFromElementMap, foldl_scanActuator_axesPresent,
    foldl_scanActuator_axesForceFeedback, foldl_scanElement_axesPresent]

/-- Closed form of the derived button count. -/
theorem derive_numButtons (req : RequiredCaps) (elements : List (Option TargetList))
    (actuators : List SActuatorElement) :
    (DeriveCapabilitiesFromElementMap req elements actuators).numButtons
      = (elements.foldl scanElement
          { axesPresent := req.requiredAxes,
            highestButtonSeen := (req.minNumButtons : Int) - 1,
            povPresent := req.isPovRequired }).highestButtonSeen + 1 := rfl

/-- Closed form of the derived POV flag. -/
theorem derive_hasPov (req : RequiredCaps) (elements : List (Option TargetList))
    (actuators : List SActuatorElement) :
    (DeriveCapabilitiesFromElementMap req elements actuators).hasPov
      = (req.isPovRequired || povTargeted elements) := by
  simp only [DeriveCapabilitiesFromElementMap, foldl_scanElement_pov]

/-- Scanning a table of absent elements leaves the scan state unchanged. -/
theorem foldl_scanElement_replicate_none (n : Nat) (s : ScanState) :
    (List.replicate n (none : Option TargetList)).foldl scanElement s = s := by
  induction n with
  | zero => rfl
  | succ n ih => simpa [List.replicate_succ, scanElement] using ih

/-- Scanning a table of absent actuators leaves the scan state unchanged. -/
theorem foldl_scanActuator_absent (actuators : List SActuatorElement) (f : FFScanState)
    (h : ∀ act ∈ actuators, act.isPresent = false) :
    actuators.foldl scanActuator f = f := by
  induction actuators generalizing f with
  | nil => rfl
  | cons act acts ih =>
    have hact : scanActuator f act = f := by simp [scanActuator, h act (by simp)]
    rw [List.foldl_cons, hact]
    exact ih f (fun a ha => h a (by simp [ha]))

/-- C2: capability derivation is a deterministic total function: it is
defined on every element-mapper table and actuator table, two derivations
from equal tables return equal capabilities, and the all-absent table
yields the minimal capabilities — only the mandated axes (flagged by the
mandated force feedback set), the mandated minimum button count, and the
mandated POV presence. -/
theorem deriveCapabilities_deterministic_total
    (req req2 : RequiredCaps) (elements elements2 : List (Option TargetList))
    (actuators actuators2 : List SActuatorElement)
    (hreq : req = req2) (helem : elements = elements2) (hact : actuators = actuators2)
    (n : Nat) (absentActuators : List SActuatorElement)
    (habs : ∀ act ∈ absentActuators, act.isPresent = false) :
    DeriveCapabilitiesFromElementMap req elements actuators
        = DeriveCapabilitiesFromElementMap req2 elements2 actuators2 ∧
    DeriveCapabilitiesFromElementMap req (List.replicate n none) absentActuators
        = { axisCapabilities :=
              (EAxis.allAxes.filter (fun a => req.requiredAxes a)).map
                (fun a =>
                  { type := a, supportsForceFeedback := req.requiredForceFeedbackAxes a }),
            numButtons := (req.minNumButtons : Int),
            hasPov := req.isPovRequired } := by
  subst hreq
  subst helem
  subst hact
  refine ⟨rfl, ?_⟩
  simp only [DeriveCapabilitiesFromElementMap, foldl_scanElement_replicate_none,
    foldl_scanActuator_absent _ _ habs]
  congr 1
  omega

/-- Witness for C2 at a concrete required-capability record, table size and
absent actuator list. -/
theorem deriveCapabilities_deterministic_total_witness :
    (∀ act ∈ ([{ isPresent := false, mode := .SingleAxis,
                 singleAxis := { axis := .X, direction := .Both },
                 magnitudeProjection := { axisFirst := .X, axisSecond := .Y } }] :
        List SActuatorElement), act.isPresent = false) ∧
    DeriveCapabilitiesFromElementMap
        { requiredAxes := fun a => decide (a = .X) || decide (a = .Y),
          requiredForceFeedbackAxes := fun _ => false,
          minNumButtons := 2, isPovRequired := false }
        (List.replicate 4 none)
        [{ isPresent := false, mode := .SingleAxis,
           singleAxis := { axis := .X, direction := .Both },
           magnitudeProjection := { axisFirst := .X, axisSecond := .Y } }]
      = { axisCapabilities :=
            (EAxis.allAxes.filter
              (fun a => ({ requiredAxes := fun a => decide (a = .X) || decide (a = .Y),
                           requiredForceFeedbackAxes := fun _ => false,
                           minNumButtons := 2, isPovRequired := false } : RequiredCaps).requiredAxes a)).map
              (fun a =>
                { type := a,
                  supportsForceFeedback :=
                    ({ requiredAxes := fun a => decide (a = .X) || decide (a = .Y),
                       requiredForceFeedbackAxes := fun _ => false,
                       minNumButtons := 2, isPovRequired := false } : RequiredCaps).requiredForceFeedbackAxes a }),
          numButtons := ((2 : Nat) : Int),
          hasPov := false } :=
  ⟨fun act hact => by simp at hact; simp [hact],
   (deriveCapabilities_deterministic_total
      { requiredAxes := fun a => decide (a = .X) || decide (a = .Y),
        requiredForceFeedbackAxes := fun _ => false,
        minNumButtons := 2, isPovRequired := false }
      { requiredAxes := fun a => decide (a = .X) || decide (a = .Y),
        requiredForceFeedbackAxes := fun _ => false,
        minNumButtons := 2, isPovRequired := false }
      [] [] [] [] rfl rfl rfl 4 _
      (fun act hact => by simp at hact; simp [hact])).2⟩

/-- C3: under a platform mandating no force feedback axes, the derived
capabilities list each present axis exactly once in ascending axis-enum
order, flag an axis for force feedback exactly when an actuator binds it,
report a button count equal to one plus the highest targeted button ordinal
floored at the mandated minimum (characterized by its least-upper-bound
properties), and set the POV flag exactly when some mapper targets a POV
direction or POV is mandated. -/
theorem deriveCapabilities_shape (req : RequiredCaps) (elements : List (Option TargetList))
    (actuators : List SActuatorElement)
    (hff : ∀ a, req.requiredForceFeedbackAxes a = false) :
    ((DeriveCapabilitiesFromElementMap req elements actuators).axisCapabilities.map
        SAxisCapabilities.type).Nodup ∧
    (DeriveCapabilitiesFromElementMap req elements actuators).axisCapabilities.Pairwise
        (fun c d => c.type.idx < d.type.idx) ∧
    (∀ a : EAxis,
        (∃ c ∈ (DeriveCapabilitiesFromElementMap req elements actuators).axisCapabilities,
            c.type = a)
          ↔ (req.requiredAxes a = true ∨ axisTargeted elements a = true ∨
              actuatorBinds actuators a = true)) ∧
    (∀ c ∈ (DeriveCapabilitiesFromElementMap req elements actuators).axisCapabilities,
        c.supportsForceFeedback = actuatorBinds actuators c.type) ∧
    (∀ b : Fin 16, buttonTargeted elements b = true →
        (b.val : Int) < (DeriveCapabilitiesFromElementMap req elements actuators).numButtons) ∧
    ((req.minNumButtons : Int)
        ≤ (DeriveCapabilitiesFromElementMap req elements actuators).numButtons) ∧
    ((DeriveCapabilitiesFromElementMap req elements actuators).numButtons
          = (req.minNumButtons : Int) ∨
      ∃ b : Fin 16, buttonTargeted elements b = true ∧
        (DeriveCapabilitiesFromElementMap req elements actuators).numButtons
          = (b.val : Int) + 1) ∧
    ((DeriveCapabilitiesFromElementMap req elements actuators).hasPov
        = (req.isPovRequired || povTargeted elements)) := by
  have hall : EAxis.allAxes.Pairwise (fun a b => a.idx < b.idx) := by decide
  have hnodup : EAxis.allAxes.Nodup := by decide
  refine ⟨?_, ?_, ?_, ?_, ?_, ?_, ?_, ?_⟩
  · rw [derive_axisCapabilities, List.map_map]
    have : (SAxisCapabilities.type ∘ fun a =>
        ({ type := a,
           supportsForceFeedback :=
             req.requiredForceFeedbackAxes a || actuatorBinds actuators a } : SAxisCapabilities))
        = id := by
      funext a
      rfl
    rw [this, List.map_id]
    exact hnodup.filter _
  · rw [derive_axisCapabilities]
    rw [List.pairwise_map]
    exact (hall.filter _)
  · intro a
    rw [derive_axisCapabilities]
    simp only [List.mem_map, List.mem_filter, EAxis.mem_allAxes, true_and]
    constructor
    · rintro ⟨c, ⟨x, hx, rfl⟩, hc⟩
      simp only at hc
      subst hc
      simpa [Bool.or_eq_true, or_assoc] using hx
    · intro h
      refine ⟨{ type := a,
                supportsForceFeedback :=
                  req.requiredForceFeedbackAxes a || actuatorBinds actuators a },
              ⟨a, ?_, rfl⟩, rfl⟩
      simpa [Bool.or_eq_true, or_assoc] using h
  · intro c hc
    rw [derive_axisCapabilities] at hc
    obtain ⟨x, hx, rfl⟩ := List.mem_map.mp hc
    simp [hff]
  · intro b hb
    rw [derive_numButtons]
    have := foldl_scanElement_highest_bound elements
      { axesPresent := req.requiredAxes,
        highestButtonSeen := (req.minNumButtons : Int) - 1,
        povPresent := req.isPovRequired } b hb
    omega
  · rw [derive_numButtons]
    have h2 : ((req.minNumButtons : Int) - 1)
        ≤ (elements.foldl scanElement
            { axesPresent := req.requiredAxes,
              highestButtonSeen := (req.minNumButtons : Int) - 1,
              povPresent := req.isPovRequired }).highestButtonSeen :=
      foldl_scanElement_highest_le elements _
    omega
  · rw [derive_numButtons]
    rcases foldl_scanElement_highest_cases elements
      { axesPresent := req.requiredAxes,
        highestButtonSeen := (req.minNumButtons : Int) - 1,
        povPresent := req.isPovRequired } with h | ⟨b, hb, he⟩
    · left
      rw [h]
      show ((req.minNumButtons : Int) - 1) + 1 = (req.minNumButtons : Int)
      omega
    · exact Or.inr ⟨b, hb, by rw [he]⟩
  · exact derive_hasPov req elements actuators

/-- Witness for C3 at a concrete table: one mapper targeting axis Z and
button 3, one present single-axis actuator bound to axis RotX. -/
theorem deriveCapabilities_shape_witness :
    (∀ a, ({ requiredAxes := fun a => decide (a = .X) || decide (a = .Y),
             requiredForceFeedbackAxes := fun _ => false,
             minNumButtons := 2, isPovRequired := false } : RequiredCaps).requiredForceFeedbackAxes a
        = false) ∧
    ((DeriveCapabilitiesFromElementMap
        { requiredAxes := fun a => decide (a = .X) || decide (a = .Y),
          requiredForceFeedbackAxes := fun _ => false,
          minNumButtons := 2, isPovRequired := false }
        [some [some (.axis .Z), some (.button 3)], none]
        [{ isPresent := true, mode := .SingleAxis,
           singleAxis := { axis := .RotX, direction := .Both },
           magnitudeProjection := { axisFirst := .X, axisSecond := .Y } }]).hasPov
      = (false || povTargeted [some [some (.axis .Z), some (.button 3)], none])) :=
  ⟨fun _ => rfl,
   (deriveCapabilities_shape
      { requiredAxes := fun a => decide (a = .X) || decide (a = .Y),
        requiredForceFeedbackAxes := fun _ => false,
        minNumButtons := 2, isPovRequired := false }
      [some [some (.axis .Z), some (.button 3)], none]
      [{ isPresent := true, mode := .SingleAxis,
         singleAxis := { axis := .RotX, direction := .Both },
         magnitudeProjection := { axisFirst := .X, axisSecond := .Y } }]
      (fun _ => rfl)).2.2.2.2.2.2.2⟩

/-- Zero magnitude of a force feedback effect.  Modelled from the spec:
declared in ForceFeedbackTypes.h, which is not among the available sources;
the scaling code in Mapper.cpp uses it as the origin of the virtual
magnitude range. -/
noncomputable def kEffectForceMagnitudeZero : ℝ := 0

/-- Maximum magnitude of a force feedback effect (the nominal DirectInput
maximum).  Modelled from the spec: declared in ForceFeedbackTypes.h, which
is not among the available sources. -/
noncomputable def kEffectForceMagnitudeMaximum : ℝ := 10000

/-- Maximum value of a force feedback effect modifier such as gain.
Modelled from the spec: declared in ForceFeedbackTypes.h, which is not
among the available sources. -/
noncomputable def kEffectModifierMaximum : ℝ := 10000

/-- Width of the physical actuator output range, the difference between the
extreme values of the unsigned 16-bit physical actuator value type.
Modelled from the spec: TPhysicalActuatorValue is declared in
ForceFeedbackTypes.h, which is not among the available sources; its range
is the XInput motor speed range 0 to 65535. -/
noncomputable def kPhysicalActuatorRange : ℝ := 65535

/-- Rounding to the nearest integer with ties away from zero, the semantics
of std::lround used by the force feedback scaling code.  The floating-point
arithmetic of the source is modelled exactly over the real numbers. -/
noncomputable def lround (x : ℝ) : ℤ :=
  if x < 0 then -⌊-x + 1 / 2⌋ else ⌊x + 1 / 2⌋

/-- Rounding a nonnegative value gives a nonnegative integer. -/
theorem lround_nonneg {x : ℝ} (h : 0 ≤ x) : 0 ≤ lround x := by
  rw [lround, if_neg (not_lt.mpr h)]
  exact Int.floor_nonneg.mpr (by linarith)

/-- Rounding is monotone. -/
theorem lround_mono {x y : ℝ} (h : x ≤ y) : lround x ≤ lround y := by
  unfold lround
  split_ifs with hx hy
  · have := Int.floor_mono (show -y + 1 / 2 ≤ -x + 1 / 2 by linarith)
    omega
  · have h1 : 0 ≤ ⌊-x + 1 / 2⌋ := Int.floor_nonneg.mpr (by linarith)
    have h2 : 0 ≤ ⌊y + 1 / 2⌋ := Int.floor_nonneg.mpr (by linarith)
    omega
  · linarith
  · exact Int.floor_mono (by linarith)

/-- The floor of one half is zero. -/
theorem floor_one_half : ⌊(1 / 2 : ℝ)⌋ = 0 := by
  rw [Int.floor_eq_iff]
  norm_num

/-- Rounding a value bounded by a nonnegative integer stays bounded by it. -/
theorem lround_le_of_le {x : ℝ} {n : ℤ} (hn : 0 ≤ n) (h : x ≤ (n : ℝ)) : lround x ≤ n := by
  unfold lround
  split_ifs with hx
  · have h1 : 0 ≤ ⌊-x + 1 / 2⌋ := Int.floor_nonneg.mpr (by linarith)
    omega
  · have h2 : ⌊x + 1 / 2⌋ ≤ ⌊(n : ℝ) + 1 / 2⌋ := Int.floor_mono (by linarith)
    have h3 : ⌊(n : ℝ) + 1 / 2⌋ = n := by
      rw [add_comm, Int.floor_add_int, floor_one_half]
      omega
    omega

/-- Physical force feedback actuator value computation (Mapper.cpp,
ForceFeedbackActuatorValue): an absent actuator outputs zero; a single-axis
actuator reads its bound axis component and outputs zero when the component
is exactly zero or when its sign does not match a polarity restriction; a
magnitude-projection actuator takes the Euclidean norm of its two bound
components; the resulting raw strength is scaled by gain, clamped to the
gain-scaled maximum, rescaled into the physical actuator range and rounded,
and the resulting long value is converted to the unsigned 16-bit physical
actuator type (a modular conversion). -/
noncomputable def ForceFeedbackActuatorValue (virtualEffectComponents : EAxis → ℝ)
    (actuatorElement : SActuatorElement) (gain : ℝ) : ℕ :=
  if actuatorElement.isPresent = false then 0
  else
    let rawResult : Option ℝ :=
      match actuatorElement.mode with
      | .SingleAxis =>
          if virtualEffectComponents actuatorElement.singleAxis.axis
              = kEffectForceMagnitudeZero then none
          else if actuatorElement.singleAxis.direction = .Positive ∧
              virtualEffectComponents actuatorElement.singleAxis.axis < 0 then none
          else if actuatorElement.singleAxis.direction = .Negative ∧
              ¬ virtualEffectComponents actuatorElement.singleAxis.axis < 0 then none
          else some (virtualEffectComponents actuatorElement.singleAxis.axis)
      | .MagnitudeProjection =>
          some (Real.sqrt
            (virtualEffectComponents actuatorElement.magnitudeProjection.axisFirst ^ 2 +
              virtualEffectComponents actuatorElement.magnitudeProjection.axisSecond ^ 2))
    match rawResult with
    | none => 0
    | some virtualActuatorStrengthRaw =>
        let kVirtualMagnitudeRange : ℝ := kEffectForceMagnitudeMaximum - kEffectForceMagnitudeZero
        let kScalingFactor : ℝ := kPhysicalActuatorRange / kVirtualMagnitudeRange
        let kGainMultiplier : ℝ := gain / kEffectModifierMaximum
        let kVirtualActuatorStrengthMax : ℝ :=
          (kEffectForceMagnitudeMaximum - kEffectForceMagnitudeZero) * kGainMultiplier
        let kVirtualActuatorStrength : ℝ :=
          min kVirtualActuatorStrengthMax
            (kGainMultiplier * |virtualActuatorStrengthRaw - kEffectForceMagnitudeZero|)
        (Int.emod (lround (kVirtualActuatorStrength * kScalingFactor)) 65536).toNat

/-- Specification-side gain scaling stage: the raw actuator strength is
scaled by gain over maximum gain, clamped to the gain-scaled maximum
magnitude, taken in absolute value, linearly rescaled into the physical
actuator range, rounded to nearest, and converted to the unsigned physical
type. -/
noncomputable def actuatorGainScale (raw gain : ℝ) : ℕ :=
  (Int.emod
    (lround
      (min (kEffectForceMagnitudeMaximum * (gain / kEffectModifierMaximum))
          ((gain / kEffectModifierMaximum) * |raw|) *
        (kPhysicalActuatorRange / kEffectForceMagnitudeMaximum)))
    65536).toNat

/-- Unfolded value of the maximum effect magnitude constant. -/
theorem kEffectForceMagnitudeMaximum_eq : kEffectForceMagnitudeMaximum = 10000 := rfl

/-- Unfolded value of the maximum effect modifier constant. -/
theorem kEffectModifierMaximum_eq : kEffectModifierMaximum = 10000 := rfl

/-- Unfolded value of the physical actuator range constant. -/
theorem kPhysicalActuatorRange_eq : kPhysicalActuatorRange = 65535 := rfl

/-- Unfolded value of the zero effect magnitude constant. -/
theorem kEffectForceMagnitudeZero_eq : kEffectForceMagnitudeZero = 0 := rfl

/-- An absent actuator outputs zero. -/
theorem ffValue_absent (comps : EAxis → ℝ) (elem : SActuatorElement) (gain : ℝ)
    (hp : elem.isPresent = false) :
    ForceFeedbackActuatorValue comps elem gain = 0 := by
  simp [ForceFeedbackActuatorValue, hp]

/-- A single-axis actuator whose bound component is exactly zero outputs
zero. -/
theorem ffValue_zero_component (comps : EAxis → ℝ) (elem : SActuatorElement) (gain : ℝ)
    (hp : elem.isPresent = true) (hm : elem.mode = .SingleAxis)
    (hz : comps elem.singleAxis.axis = 0) :
    ForceFeedbackActuatorValue comps elem gain = 0 := by
  simp [ForceFeedbackActuatorValue, hp, hm, hz, kEffectForceMagnitudeZero_eq]

/-- A single-axis actuator restricted to the positive direction outputs zero
on a negative component. -/
theorem ffValue_positive_restricted_neg (comps : EAxis → ℝ) (elem : SActuatorElement) (gain : ℝ)
    (hp : elem.isPresent = true) (hm : elem.mode = .SingleAxis)
    (hd : elem.singleAxis.direction = .Positive)
    (hlt : comps elem.singleAxis.axis < 0) :
    ForceFeedbackActuatorValue comps elem gain = 0 := by
  simp [ForceFeedbackActuatorValue, hp, hm, hd, kEffectForceMagnitudeZero_eq,
    ne_of_lt hlt, hlt]

/-- A single-axis actuator restricted to the negative direction outputs zero
on a nonnegative nonzero component. -/
theorem ffValue_negative_restricted_pos (comps : EAxis → ℝ) (elem : SActuatorElement) (gain : ℝ)
    (hp : elem.isPresent = true) (hm : elem.mode = .SingleAxis)
    (hd : elem.singleAxis.direction = .Negative)
    (h0 : comps elem.singleAxis.axis ≠ 0)
    (hge : ¬ comps elem.singleAxis.axis < 0) :
    ForceFeedbackActuatorValue comps elem gain = 0 := by
  simp [ForceFeedbackActuatorValue, hp, hm, hd, kEffectForceMagnitudeZero_eq, h0, hge]

/-- A single-axis actuator in the pass-through case hands the raw bound
component to the gain scaling stage. -/
theorem ffValue_single_axis_formula (comps : EAxis → ℝ) (elem : SActuatorElement) (gain : ℝ)
    (hp : elem.isPresent = true) (hm : elem.mode = .SingleAxis)
    (h0 : comps elem.singleAxis.axis ≠ 0)
    (hc2 : ¬ (elem.singleAxis.direction = .Positive ∧ comps elem.singleAxis.axis < 0))
    (hc3 : ¬ (elem.singleAxis.direction = .Negative ∧ ¬ comps elem.singleAxis.axis < 0)) :
    ForceFeedbackActuatorValue comps elem gain
      = actuatorGainScale (comps elem.singleAxis.axis) gain := by
  have hc4 : ¬ (elem.singleAxis.direction = .Negative ∧ 0 ≤ comps elem.singleAxis.axis) := by
    simpa [not_lt] using hc3
  simp [ForceFeedbackActuatorValue, actuatorGainScale, hp, hm, h0, hc2, hc4,
    kEffectForceMagnitudeZero_eq, sub_zero]

/-- A magnitude-projection actuator hands the Euclidean norm of its two
bound components to the gain scaling stage. -/
theorem ffValue_projection_formula (comps : EAxis → ℝ) (elem : SActuatorElement) (gain : ℝ)
    (hp : elem.isPresent = true) (hm : elem.mode = .MagnitudeProjection) :
    ForceFeedbackActuatorValue comps elem gain
      = actuatorGainScale
          (Real.sqrt (comps elem.magnitudeProjection.axisFirst ^ 2 +
            comps elem.magnitudeProjection.axisSecond ^ 2)) gain := by
  simp [ForceFeedbackActuatorValue, actuatorGainScale, hp, hm,
    kEffectForceMagnitudeZero_eq, sub_zero]

/-- Modular reduction and conversion of rounded, bounded scaled values is
monotone. -/
theorem scaled_emod_toNat_le {x y : ℝ} (hx0 : 0 ≤ x) (hxy : x ≤ y) (hy : y ≤ 65535) :
    (Int.emod (lround x) 65536).toNat ≤ (Int.emod (lround y) 65536).toNat := by
  have l1 : 0 ≤ lround x := lround_nonneg hx0
  have l2 : lround x ≤ lround y := lround_mono hxy
  have l3 : lround y ≤ 65535 := by
    apply lround_le_of_le (by norm_num)
    push_cast
    exact hy
  have e1 : (lround x).emod 65536 = lround x := Int.emod_eq_of_lt (by omega) (by omega)
  have e2 : (lround y).emod 65536 = lround y := Int.emod_eq_of_lt (by omega) (by omega)
  rw [e1, e2]
  exact Int.toNat_le_toNat l2

/-- The gain scaling stage is monotone in a nonnegative raw strength, for
gains within the modifier range. -/
theorem actuatorGainScale_mono (v1 v2 gain : ℝ) (h0 : 0 ≤ v1) (h12 : v1 ≤ v2)
    (hg0 : 0 ≤ gain) (hg1 : gain ≤ kEffectModifierMaximum) :
    actuatorGainScale v1 gain ≤ actuatorGainScale v2 gain := by
  rw [kEffectModifierMaximum_eq] at hg1
  unfold actuatorGainScale
  rw [kEffectForceMagnitudeMaximum_eq, kEffectModifierMaximum_eq, kPhysicalActuatorRange_eq]
  have hg2 : 0 ≤ gain / 10000 := div_nonneg hg0 (by norm_num)
  have habs1 : |v1| = v1 := abs_of_nonneg h0
  have habs2 : |v2| = v2 := abs_of_nonneg (le_trans h0 h12)
  rw [habs1, habs2]
  apply scaled_emod_toNat_le
  · apply mul_nonneg (le_min (by nlinarith) (by nlinarith)) (by norm_num)
  · apply mul_le_mul_of_nonneg_right
      (min_le_min (le_refl _) (by nlinarith)) (by norm_num)
  · have hmin : min ((10000 : ℝ) * (gain / 10000)) ((gain / 10000) * v2)
        ≤ 10000 * (gain / 10000) := min_le_left _ _
    nlinarith

/-- The gain scaling stage never exceeds its value at the maximum
magnitude, for gains within the modifier range. -/
theorem actuatorGainScale_le_max (v gain : ℝ)
    (hg0 : 0 ≤ gain) (hg1 : gain ≤ kEffectModifierMaximum) :
    actuatorGainScale v gain ≤ actuatorGainScale kEffectForceMagnitudeMaximum gain := by
  rw [kEffectModifierMaximum_eq] at hg1
  unfold actuatorGainScale
  rw [kEffectForceMagnitudeMaximum_eq, kEffectModifierMaximum_eq, kPhysicalActuatorRange_eq]
  have hg2 : 0 ≤ gain / 10000 := div_nonneg hg0 (by norm_num)
  have habs : |(10000 : ℝ)| = 10000 := by norm_num
  rw [habs]
  apply scaled_emod_toNat_le
  · apply mul_nonneg (le_min (by nlinarith) (by positivity)) (by norm_num)
  · apply mul_le_mul_of_nonneg_right ?_ (by norm_num)
    apply le_min (min_le_left _ _)
    calc min ((10000 : ℝ) * (gain / 10000)) ((gain / 10000) * |v|)
        ≤ 10000 * (gain / 10000) := min_le_left _ _
      _ = (gain / 10000) * 10000 := by ring
  · have hmin : min ((10000 : ℝ) * (gain / 10000)) ((gain / 10000) * 10000)
        ≤ 10000 * (gain / 10000) := min_le_left _ _
    nlinarith

/-- At or beyond the maximum magnitude the gain scaling stage saturates at
its value at the maximum magnitude. -/
theorem actuatorGainScale_eq_max (v gain : ℝ) (hg0 : 0 ≤ gain)
    (hv : kEffectForceMagnitudeMaximum ≤ v) :
    actuatorGainScale v gain = actuatorGainScale kEffectForceMagnitudeMaximum gain := by
  rw [kEffectForceMagnitudeMaximum_eq] at hv
  unfold actuatorGainScale
  rw [kEffectForceMagnitudeMaximum_eq, kEffectModifierMaximum_eq, kPhysicalActuatorRange_eq]
  have hg2 : 0 ≤ gain / 10000 := div_nonneg hg0 (by norm_num)
  have hv0 : 0 ≤ v := le_trans (by norm_num) hv
  rw [abs_of_nonneg hv0, abs_of_nonneg (by norm_num : (0:ℝ) ≤ 10000)]
  rw [min_eq_left (by nlinarith), min_eq_left (by nlinarith)]

/-- C5: for an actuator, the physical output is exactly zero when the
actuator is unassigned, when (in single-axis mode) the bound axis component
is exactly zero, and when the actuator is restricted to one polarity and
the component's sign does not match; otherwise the raw magnitude
(single-axis mode) or the Euclidean norm of the two bound components
(magnitude-projection mode) is handed to the gain scaling stage.
Mapper::MapForceFeedbackVirtualToPhysical applies this computation to each
of the four physical actuators. -/
theorem forceFeedbackActuatorValue_cases (comps : EAxis → ℝ) (elem : SActuatorElement) (gain : ℝ) :
    (elem.isPresent = false → ForceFeedbackActuatorValue comps elem gain = 0) ∧
    (elem.isPresent = true → elem.mode = .SingleAxis →
        comps elem.singleAxis.axis = 0 →
        ForceFeedbackActuatorValue comps elem gain = 0) ∧
    (elem.isPresent = true → elem.mode = .SingleAxis →
        elem.singleAxis.direction = .Positive → comps elem.singleAxis.axis < 0 →
        ForceFeedbackActuatorValue comps elem gain = 0) ∧
    (elem.isPresent = true → elem.mode = .SingleAxis →
        elem.singleAxis.direction = .Negative → comps elem.singleAxis.axis ≠ 0 →
        0 ≤ comps elem.singleAxis.axis →
        ForceFeedbackActuatorValue comps elem gain = 0) ∧
    (elem.isPresent = true → elem.mode = .SingleAxis →
        comps elem.singleAxis.axis ≠ 0 →
        ¬ (elem.singleAxis.direction = .Positive ∧ comps elem.singleAxis.axis < 0) →
        ¬ (elem.singleAxis.direction = .Negative ∧ 0 ≤ comps elem.singleAxis.axis) →
        ForceFeedbackActuatorValue comps elem gain
          = actuatorGainScale (comps elem.singleAxis.axis) gain) ∧
    (elem.isPresent = true → elem.mode = .MagnitudeProjection →
        ForceFeedbackActuatorValue comps elem gain
          = actuatorGainScale
              (Real.sqrt (comps elem.magnitudeProjection.axisFirst ^ 2 +
                comps elem.magnitudeProjection.axisSecond ^ 2)) gain) := by
  refine ⟨?_, ?_, ?_, ?_, ?_, ?_⟩
  · exact fun hp => ffValue_absent comps elem gain hp
  · exact fun hp hm hz => ffValue_zero_component comps elem gain hp hm hz
  · exact fun hp hm hd hlt => ffValue_positive_restricted_neg comps elem gain hp hm hd hlt
  · exact fun hp hm hd h0 hge =>
      ffValue_negative_restricted_pos comps elem gain hp hm hd h0 (not_lt.mpr hge)
  · intro hp hm h0 hc2 hc3
    refine ffValue_single_axis_formula comps elem gain hp hm h0 hc2 ?_
    intro h
    exact hc3 ⟨h.1, not_lt.mp h.2⟩
  · exact fun hp hm => ffValue_projection_formula comps elem gain hp hm

/-- Concrete present single-axis actuator bound to axis X with no polarity
restriction, used in witnesses. -/
def sampleActuatorBoth : SActuatorElement :=
  { isPresent := true
    mode := .SingleAxis
    singleAxis := { axis := .X, direction := .Both }
    magnitudeProjection := { axisFirst := .Y, axisSecond := .Z } }

/-- Concrete present single-axis actuator bound to axis X restricted to the
positive direction, used in witnesses. -/
def sampleActuatorPositive : SActuatorElement :=
  { isPresent := true
    mode := .SingleAxis
    singleAxis := { axis := .X, direction := .Positive }
    magnitudeProjection := { axisFirst := .Y, axisSecond := .Z } }

/-- Witness for C5 at a concrete present single-axis actuator, component
vector and gain. -/
theorem forceFeedbackActuatorValue_cases_witness :
    ((fun _ : EAxis => (100 : ℝ)) sampleActuatorBoth.singleAxis.axis ≠ 0) ∧
    ForceFeedbackActuatorValue (fun _ => (100 : ℝ)) sampleActuatorBoth 10000
      = actuatorGainScale
          ((fun _ : EAxis => (100 : ℝ)) sampleActuatorBoth.singleAxis.axis) 10000 :=
  ⟨by norm_num,
   (forceFeedbackActuatorValue_cases (fun _ => (100 : ℝ))
      sampleActuatorBoth 10000).2.2.2.2.1 rfl rfl (by norm_num)
      (fun h => by cases h.1) (fun h => by cases h.1)⟩

/-- C6: for a present single-axis actuator restricted to the positive
direction and any gain in the modifier range, the physical output level is
zero on every negative bound component, is monotonically non-decreasing as
the nonnegative bound component increases, and saturates at the gain-scaled
maximum achievable magnitude. -/
theorem ff_positive_restricted_monotone (elem : SActuatorElement)
    (hp : elem.isPresent = true) (hm : elem.mode = .SingleAxis)
    (hd : elem.singleAxis.direction = .Positive)
    (gain : ℝ) (hg0 : 0 ≤ gain) (hg1 : gain ≤ kEffectModifierMaximum) :
    (∀ comps : EAxis → ℝ, comps elem.singleAxis.axis < 0 →
        ForceFeedbackActuatorValue comps elem gain = 0) ∧
    (∀ comps1 comps2 : EAxis → ℝ,
        0 ≤ comps1 elem.singleAxis.axis →
        comps1 elem.singleAxis.axis ≤ comps2 elem.singleAxis.axis →
        ForceFeedbackActuatorValue comps1 elem gain
          ≤ ForceFeedbackActuatorValue comps2 elem gain) ∧
    (∀ comps : EAxis → ℝ,
        ForceFeedbackActuatorValue comps elem gain
          ≤ actuatorGainScale kEffectForceMagnitudeMaximum gain) ∧
    (∀ comps : EAxis → ℝ, kEffectForceMagnitudeMaximum ≤ comps elem.singleAxis.axis →
        ForceFeedbackActuatorValue comps elem gain
          = actuatorGainScale kEffectForceMagnitudeMaximum gain) := by
  have hformula : ∀ comps : EAxis → ℝ, 0 < comps elem.singleAxis.axis →
      ForceFeedbackActuatorValue comps elem gain
        = actuatorGainScale (comps elem.singleAxis.axis) gain := by
    intro comps hv
    refine ffValue_single_axis_formula comps elem gain hp hm (ne_of_gt hv) ?_ ?_
    · exact fun h => absurd h.2 (not_lt.mpr hv.le)
    · intro h
      rw [hd] at h
      cases h.1
  refine ⟨?_, ?_, ?_, ?_⟩
  · exact fun comps hlt => ffValue_positive_restricted_neg comps elem gain hp hm hd hlt
  · intro comps1 comps2 h0 h12
    rcases eq_or_lt_of_le h0 with he | hpos1
    · rw [ffValue_zero_component comps1 elem gain hp hm he.symm]
      exact Nat.zero_le _
    · rw [hformula comps1 hpos1, hformula comps2 (lt_of_lt_of_le hpos1 h12)]
      exact actuatorGainScale_mono _ _ gain hpos1.le h12 hg0 hg1
  · intro comps
    rcases lt_trichotomy (comps elem.singleAxis.axis) 0 with hlt | heq | hgt
    · rw [ffValue_positive_restricted_neg comps elem gain hp hm hd hlt]
      exact Nat.zero_le _
    · rw [ffValue_zero_component comps elem gain hp hm heq]
      exact Nat.zero_le _
    · rw [hformula comps hgt]
      exact actuatorGainScale_le_max _ gain hg0 hg1
  · intro comps hv
    have hgt : 0 < comps elem.singleAxis.axis :=
      lt_of_lt_of_le (by rw [kEffectForceMagnitudeMaximum_eq]; norm_num) hv
    rw [hformula comps hgt]
    exact actuatorGainScale_eq_max _ gain hg0 hv

/-- Witness for C6 at a concrete present positive-restricted actuator and a
mid-range gain: a negative component yields zero output. -/
theorem ff_positive_restricted_monotone_witness :
    (0 : ℝ) ≤ 5000 ∧ (5000 : ℝ) ≤ kEffectModifierMaximum ∧
    ForceFeedbackActuatorValue (fun _ => (-5 : ℝ)) sampleActuatorPositive 5000 = 0 :=
  ⟨by norm_num, by rw [kEffectModifierMaximum_eq]; norm_num,
   (ff_positive_restricted_monotone sampleActuatorPositive
      rfl rfl rfl 5000 (by norm_num)
      (by rw [kEffectModifierMaximum_eq]; norm_num)).1
      (fun _ => (-5 : ℝ)) (by norm_num)⟩

/-- Name-to-mapper registry (Mapper.cpp, class MapperRegistry).  The
knownMappers std::map is modelled as an association list with map
semantics (inserting an existing key replaces its entry); mapper objects
are identified abstractly by natural numbers standing for pointers. -/
structure MapperRegistry where
  knownMappers : List (String × Nat)
  defaultMapper : String

/-- The initial, empty registry: no known mappers and an empty default
name. -/
def MapperRegistry.empty : MapperRegistry :=
  { knownMappers := [], defaultMapper := "" }

/-- Lookup in the association-list model of std::map. -/
def mapLookup (m : List (String × Nat)) (k : String) : Option Nat :=
  match m with
  | [] => none
  | (k2, v) :: rest => if k2 = k then some v else mapLookup rest k

/-- Keyed insertion in the association-list model of std::map: replaces the
entry of an existing key, otherwise appends. -/
def mapInsert (m : List (String × Nat)) (k : String) (v : Nat) : List (String × Nat) :=
  match m with
  | [] => [(k, v)]
  | (k2, v2) :: rest => if k2 = k then (k, v) :: rest else (k2, v2) :: mapInsert rest k v

/-- Keyed erasure in the association-list model of std::map. -/
def mapErase (m : List (String × Nat)) (k : String) : List (String × Nat) :=
  match m with
  | [] => []
  | (k2, v2) :: rest => if k2 = k then rest else (k2, v2) :: mapErase rest k

/-- Registration (Mapper.cpp, MapperRegistry::RegisterMapper): an empty
name is rejected; otherwise the mapper is stored under its name and, if no
default is designated yet, the name becomes the default. -/
def RegisterMapper (reg : MapperRegistry) (name : String) (object : Nat) : MapperRegistry :=
  if name = "" then reg
  else
    { knownMappers := mapInsert reg.knownMappers name object,
      defaultMapper := if reg.defaultMapper = "" then name else reg.defaultMapper }

/-- Unregistration (Mapper.cpp, MapperRegistry::UnregisterMapper): an empty
name, an unknown name, or an object mismatch is rejected; otherwise the
entry is erased and, if the erased name was the default designation, the
designation is cleared. -/
def UnregisterMapper (reg : MapperRegistry) (name : String) (object : Nat) : MapperRegistry :=
  if name = "" then reg
  else
    match mapLookup reg.knownMappers name with
    | none => reg
    | some obj =>
        if obj ≠ object then reg
        else
          { knownMappers := mapErase reg.knownMappers name,
            defaultMapper := if reg.defaultMapper = name then "" else reg.defaultMapper }

/-- Lookup (Mapper.cpp, MapperRegistry::GetMapper): an empty requested name
is replaced by the default designation before the map lookup. -/
def GetMapper (reg : MapperRegistry) (mapperName : String) : Option Nat :=
  mapLookup reg.knownMappers (if mapperName = "" then reg.defaultMapper else mapperName)

/-- One registration step over a name-object pair, as performed by the
Mapper constructor for a named mapper (Mapper.cpp, Mapper::Mapper). -/
def registerStep (reg : MapperRegistry) (p : String × Nat) : MapperRegistry :=
  RegisterMapper reg p.1 p.2

/-- Lookup after insertion. -/
theorem mapLookup_mapInsert (m : List (String × Nat)) (k name : String) (v : Nat) :
    mapLookup (mapInsert m name v) k = if name = k then some v else mapLookup m k := by
  induction m with
  | nil => simp [mapInsert, mapLookup]
  | cons p rest ih =>
    obtain ⟨k2, v2⟩ := p
    by_cases h : k2 = name
    · subst h
      by_cases h2 : k2 = k
      · subst h2
        simp [mapInsert, mapLookup]
      · simp [mapInsert, mapLookup, h2]
    · by_cases h2 : k2 = k
      · subst h2
        have h3 : ¬ name = k2 := fun h4 => h h4.symm
        simp [mapInsert, mapLookup, h, h3]
      · simp [mapInsert, mapLookup, h, h2, ih]

/-- Erasure cannot create a key. -/
theorem mapLookup_mapErase_none (m : List (String × Nat)) (k k2 : String)
    (h : mapLookup m k2 = none) : mapLookup (mapErase m k) k2 = none := by
  induction m with
  | nil => simp [mapErase, mapLookup]
  | cons p rest ih =>
    obtain ⟨k3, v3⟩ := p
    simp only [mapLookup] at h
    by_cases h3 : k3 = k2
    · simp [h3] at h
    · simp only [mapLookup, if_neg h3] at h
      simp only [mapErase]
      by_cases h4 : k3 = k
      · simp [h4, h]
      · simp [h4, mapLookup, h3, ih h]

/-- Registrations for other names preserve a key's binding. -/
theorem foldl_register_lookup_frozen (regs : List (String × Nat)) (reg : MapperRegistry)
    (k : String) (hk : ∀ p ∈ regs, p.1 ≠ k) :
    mapLookup (regs.foldl registerStep reg).knownMappers k = mapLookup reg.knownMappers k := by
  induction regs generalizing reg with
  | nil => rfl
  | cons p rest ih =>
    rw [List.foldl_cons, ih _ (fun q hq => hk q (by simp [hq]))]
    simp only [registerStep, RegisterMapper]
    split_ifs with h
    · rfl
    all_goals
      have hp1 : ¬ p.1 = k := hk p (List.mem_cons_self p rest)
      show mapLookup (mapInsert reg.knownMappers p.1 p.2) k = mapLookup reg.knownMappers k
      rw [mapLookup_mapInsert, if_neg hp1]

/-- Registrations never clear a nonempty default designation. -/
theorem foldl_register_default_frozen (regs : List (String × Nat)) (reg : MapperRegistry)
    (hd : reg.defaultMapper ≠ "") :
    (regs.foldl registerStep reg).defaultMapper = reg.defaultMapper := by
  induction regs generalizing reg with
  | nil => rfl
  | cons p rest ih =>
    rw [List.foldl_cons]
    have hstep : (registerStep reg p).defaultMapper = reg.defaultMapper := by
      simp only [registerStep, RegisterMapper]
      split_ifs with h
      · rfl
      · simp [hd]
    rw [ih _ (by rw [hstep]; exact hd), hstep]

/-- After a registration sequence with pairwise distinct names, each
registered pair is bound in the final map. -/
theorem foldl_register_lookup_mem (regs : List (String × Nat)) (reg : MapperRegistry)
    (p : String × Nat) (hp : p ∈ regs) (hnodup : (regs.map Prod.fst).Nodup)
    (hname : p.1 ≠ "") :
    mapLookup (regs.foldl registerStep reg).knownMappers p.1 = some p.2 := by
  induction regs generalizing reg with
  | nil => simp at hp
  | cons q rest ih =>
    simp only [List.map_cons, List.nodup_cons] at hnodup
    rcases List.mem_cons.mp hp with rfl | hmem
    · rw [List.foldl_cons]
      rw [foldl_register_lookup_frozen rest _ p.1
        (fun r hr hr2 => hnodup.1 (hr2 ▸ List.mem_map_of_mem Prod.fst hr))]
      simp only [registerStep, RegisterMapper, if_neg hname]
      simp [mapLookup_mapInsert]
    · exact ih (registerStep reg q) hmem hnodup.2

/-- Lookup of the empty name goes through the default designation. -/
theorem GetMapper_empty_name (reg : MapperRegistry) :
    GetMapper reg "" = mapLookup reg.knownMappers reg.defaultMapper := by
  simp [GetMapper]

/-- C8 counterexample: registering two different mapper objects under the
same name from an empty registry makes lookup of the empty name return the
second object, not the first mapper registered, because registration under
an existing name replaces the stored object while the default designation
keeps pointing at the name. -/
theorem registry_first_registered_counterexample :
    GetMapper (RegisterMapper (RegisterMapper MapperRegistry.empty "a" 0) "a" 1) "" = some 1 ∧
    ¬ GetMapper (RegisterMapper (RegisterMapper MapperRegistry.empty "a" 0) "a" 1) ""
        = some 0 := by
  constructor
  · decide
  · decide

/-- C8 (amended): starting from an empty registry, for every nonempty
sequence of named-mapper registrations with pairwise distinct nonempty
names and no intervening unregistrations, looking up the empty name returns
the first mapper registered (first-registered-wins default designation),
and each named mapper is registered under its name. -/
theorem registry_first_registered_wins (regs : List (String × Nat)) (q : String × Nat)
    (rest : List (String × Nat)) (hregs : regs = q :: rest)
    (hnames : ∀ p ∈ regs, p.1 ≠ "")
    (hnodup : (regs.map Prod.fst).Nodup) :
    GetMapper (regs.foldl registerStep MapperRegistry.empty) "" = some q.2 ∧
    ∀ p ∈ regs, GetMapper (regs.foldl registerStep MapperRegistry.empty) p.1 = some p.2 := by
  subst hregs
  have hq : q.1 ≠ "" := hnames q (List.mem_cons_self q rest)
  have hnodup2 := hnodup
  simp only [List.map_cons, List.nodup_cons] at hnodup2
  have hnot : ∀ p ∈ rest, p.1 ≠ q.1 := by
    intro p hp h
    exact hnodup2.1 (h ▸ List.mem_map_of_mem Prod.fst hp)
  have hreg1 : registerStep MapperRegistry.empty q
      = { knownMappers := [(q.1, q.2)], defaultMapper := q.1 } := by
    simp [registerStep, RegisterMapper, MapperRegistry.empty, mapInsert, hq]
  constructor
  · rw [List.foldl_cons, hreg1, GetMapper_empty_name,
      foldl_register_default_frozen rest _ hq,
      foldl_register_lookup_frozen rest _ q.1 hnot]
    simp [mapLookup]
  · intro p hp
    have hp1 : p.1 ≠ "" := hnames p hp
    show mapLookup _ (if p.1 = "" then _ else p.1) = some p.2
    rw [if_neg hp1]
    exact foldl_register_lookup_mem _ _ p hp hnodup hp1

/-- Witness for the amended C8 at a concrete two-element registration
sequence. -/
theorem registry_first_registered_wins_witness :
    GetMapper ([("a", 5), ("b", 7)].foldl registerStep MapperRegistry.empty) "" = some 5 ∧
    GetMapper ([("a", 5), ("b", 7)].foldl registerStep MapperRegistry.empty) "b" = some 7 :=
  ⟨(registry_first_registered_wins [("a", 5), ("b", 7)] ("a", 5) [("b", 7)] rfl
      (by decide) (by decide)).1,
   (registry_first_registered_wins [("a", 5), ("b", 7)] ("a", 5) [("b", 7)] rfl
      (by decide) (by decide)).2 ("b", 7) (by decide)⟩

/-- C10: if the mapper designated as the registry default is unregistered
with matching name and object, the default designation is cleared rather
than transferred, so a subsequent lookup with an empty name returns no
mapper even when other named mappers remain registered.  The hypothesis
that the empty name is not a map key is the registry invariant maintained
by RegisterMapper, which rejects empty names. -/
theorem unregister_default_clears (reg : MapperRegistry) (name : String) (object : Nat)
    (hname : name ≠ "") (hdef : reg.defaultMapper = name)
    (hobj : mapLookup reg.knownMappers name = some object)
    (hempty : mapLookup reg.knownMappers "" = none) :
    (UnregisterMapper reg name object).defaultMapper = "" ∧
    GetMapper (UnregisterMapper reg name object) "" = none := by
  have hu : UnregisterMapper reg name object
      = { knownMappers := mapErase reg.knownMappers name, defaultMapper := "" } := by
    unfold UnregisterMapper
    rw [if_neg hname, hobj]
    simp [hdef]
  rw [hu, GetMapper_empty_name]
  exact ⟨rfl, mapLookup_mapErase_none _ _ _ hempty⟩

/-- Witness for C10 at a concrete registry holding two mappers whose
default is the one being unregistered. -/
theorem unregister_default_clears_witness :
    ("a" : String) ≠ "" ∧
    (UnregisterMapper { knownMappers := [("a", 0), ("b", 1)], defaultMapper := "a" } "a" 0).defaultMapper = "" ∧
    GetMapper (UnregisterMapper { knownMappers := [("a", 0), ("b", 1)], defaultMapper := "a" } "a" 0) "" = none :=
  ⟨by decide,
   (unregister_default_clears { knownMappers := [("a", 0), ("b", 1)], defaultMapper := "a" }
      "a" 0 (by decide) rfl (by decide) (by decide)).1,
   (unregister_default_clears { knownMappers := [("a", 0), ("b", 1)], defaultMapper := "a" }
      "a" 0 (by decide) rfl (by decide) (by decide)).2⟩

/-- Number of physical controllers supported by the underlying system
(ControllerTypes.h, kPhysicalControllerCount = XUSER_MAX_COUNT = 4). -/
def kPhysicalControllerCount : Nat := 4

/-- Contents of the mapper section of the configuration file as read by
Mapper::GetConfigured: the optional controller-independent type setting and
the optional per-controller type settings.  Modelled from the spec
boundary: the configuration data source (Configuration.h, Globals.h,
Strings.h) is outside the translated core and supplies, per slot, an
optional mapper name string. -/
structure MapperConfigSection where
  typeSetting : Option String
  perController : Fin 4 → Option String

/-- Configuration data visible to Mapper::GetConfigured: the mapper section
may be absent entirely. -/
structure ConfigData where
  mapperSection : Option MapperConfigSection

/-- The distinguished null mapper (Mapper.cpp, Mapper::GetNull): a static
anonymous mapper constructed lazily and never deregistered, modelled as a
fixed object identifier. -/
def GetNull : Nat := 0

/-- Lookup of the default mapper, the registry lookup with an empty name
(Mapper.cpp, Mapper::GetDefault declared in Mapper.h; its body is the
GetByName call with an empty string). -/
def GetDefault (reg : MapperRegistry) : Option Nat := GetMapper reg ""

/-- One-time computation of the per-controller configured mapper table
(Mapper.cpp, the lambda executed under std::call_once in
Mapper::GetConfigured): with a mapper section present, the fallback is the
controller-independent type setting's mapper if it resolves, else the
default mapper, else the null mapper; each slot uses its own setting's
mapper if the setting exists and resolves, else the fallback.  Without a
mapper section every slot gets the default mapper, or the null mapper if no
default exists. -/
def configuredMapperTable (config : ConfigData) (reg : MapperRegistry) : Fin 4 → Option Nat :=
  match config.mapperSection with
  | some mapperConfigData =>
      let fallbackFromType : Option Nat :=
        match mapperConfigData.typeSetting with
        | some fallbackMapperName => GetMapper reg fallbackMapperName
        | none => none
      let fallbackMapper : Option Nat :=
        match fallbackFromType with
        | some m => some m
        | none =>
            match GetDefault reg with
            | some d => some d
            | none => some GetNull
      fun i =>
        match mapperConfigData.perController i with
        | some configuredMapperName =>
            match GetMapper reg configuredMapperName with
            | some m => some m
            | none => fallbackMapper
        | none => fallbackMapper
  | none =>
      let defaultMapper : Option Nat :=
        match GetDefault reg with
        | some d => some d
        | none => some GetNull
      fun _ => defaultMapper

/-- Resolution of the configured mapper for one controller slot
(Mapper.cpp, Mapper::GetConfigured): an out-of-bounds controller identifier
yields the null mapper, otherwise the slot's entry of the configured
mapper table. -/
def GetConfigured (config : ConfigData) (reg : MapperRegistry)
    (controllerIdentifier : Nat) : Option Nat :=
  if h : controllerIdentifier < kPhysicalControllerCount then
    configuredMapperTable config reg ⟨controllerIdentifier, h⟩
  else some GetNull

/-- Specification-side resolution of an optional configured name against
the registry. -/
def resolveSetting (reg : MapperRegistry) (setting : Option String) : Option Nat :=
  match setting with
  | some name => GetMapper reg name
  | none => none

/-- C9: GetConfigured never returns a null pointer, and whenever the
configuration supplies no mapper name applicable to a slot (the per-slot
setting and the controller-independent type setting are each absent or
unresolvable, or the whole mapper section is absent), the result falls back
first to the registry's default mapper and then to the null mapper if no
default exists. -/
theorem getConfigured_fallback (config : ConfigData) (reg : MapperRegistry) (i : Nat) :
    (GetConfigured config reg i).isSome = true ∧
    (∀ h : i < kPhysicalControllerCount, ∀ sec, config.mapperSection = some sec →
      resolveSetting reg (sec.perController ⟨i, h⟩) = none →
      resolveSetting reg sec.typeSetting = none →
      GetConfigured config reg i = some ((GetDefault reg).getD GetNull)) ∧
    (i < kPhysicalControllerCount → config.mapperSection = none →
      GetConfigured config reg i = some ((GetDefault reg).getD GetNull)) := by
  refine ⟨?_, ?_, ?_⟩
  · unfold GetConfigured
    split_ifs with h
    · unfold configuredMapperTable
      cases hs : config.mapperSection with
      | none =>
        cases hd : GetDefault reg <;> simp
      | some sec =>
        cases hps : sec.perController ⟨i, h⟩ with
        | none =>
          cases hts : sec.typeSetting with
          | none => cases hd : GetDefault reg <;> simp [*]
          | some tn =>
            cases hn : GetMapper reg tn <;>
              cases hd : GetDefault reg <;> simp [*]
        | some nm =>
          cases hn : GetMapper reg nm with
          | some m => simp [*]
          | none =>
            cases hts : sec.typeSetting with
            | none => cases hd : GetDefault reg <;> simp [*]
            | some tn =>
              cases hn2 : GetMapper reg tn <;>
                cases hd : GetDefault reg <;> simp [*]
    · simp
  · intro h sec hsec hps hts
    unfold GetConfigured
    rw [dif_pos h]
    unfold configuredMapperTable
    rw [hsec]
    cases hps2 : sec.perController ⟨i, h⟩ with
    | none =>
      cases hts2 : sec.typeSetting with
      | none =>
        cases hd : GetDefault reg <;> simp [*]
      | some tn =>
        rw [hts2] at hts
        simp only [resolveSetting] at hts
        cases hd : GetDefault reg <;> simp [*]
    | some nm =>
      rw [hps2] at hps
      simp only [resolveSetting] at hps
      cases hts2 : sec.typeSetting with
      | none =>
        cases hd : GetDefault reg <;> simp [*]
      | some tn =>
        rw [hts2] at hts
        simp only [resolveSetting] at hts
        cases hd : GetDefault reg <;> simp [*]
  · intro h hsec
    unfold GetConfigured
    rw [dif_pos h]
    unfold configuredMapperTable
    rw [hsec]
    cases hd : GetDefault reg <;> simp [*]

/-- Witness for C9 at a concrete configuration with an empty mapper section
and an empty registry: slot 0 resolves to the null mapper. -/
theorem getConfigured_fallback_witness :
    ((0 : Nat) < kPhysicalControllerCount) ∧
    GetConfigured { mapperSection := some { typeSetting := none, perController := fun _ => none } }
        MapperRegistry.empty 0
      = some ((GetDefault MapperRegistry.empty).getD GetNull) :=
  ⟨by decide,
   (getConfigured_fallback
      { mapperSection := some { typeSetting := none, perController := fun _ => none } }
      MapperRegistry.empty 0).2.1 (by decide) _ rfl rfl rfl⟩

/-- Generic association-list lookup with map semantics, used for the
builder's blueprint container and for the mapper registry as the builder
sees it. -/
def alookup {α : Type} (m : List (String × α)) (k : String) : Option α :=
  match m with
  | [] => none
  | (k2, v) :: rest => if k2 = k then some v else alookup rest k

/-- Number of element slots in a mapper's element table (the all member of
Mapper::UElementMap): four stick axes, four d-pad directions, two triggers
and ten buttons.  Modelled from the spec: Mapper.h is not among the
available sources; the count follows the named slots used in Mapper.cpp. -/
def kElementMapCount : Nat := 20

/-- Element table of a built mapper, one optional element mapper per slot;
element mappers are abstracted as object identifiers for the builder. -/
abbrev MTable := List (Option Nat)

/-- Mapper blueprint (MapperBuilder.h, struct MapperBuilder::SBlueprint):
an optional template mapper name, the sparse changes to apply on the
template (an absent value meaning element mapper removal), and the
build-attempted flag used to detect dependency cycles. -/
structure SBlueprint where
  templateName : String
  changesFromTemplate : List (Nat × Option Nat)
  buildAttempted : Bool

/-- Combined state of a MapperBuilder and the mapper registry it registers
built mappers into. -/
structure BuilderState where
  blueprints : List (String × SBlueprint)
  registry : List (String × MTable)

/-- The all-absent element table used as the base when building without a
template. -/
def emptyTable : MTable := List.replicate kElementMapCount none

/-- Application of a blueprint's sparse overrides on a base table: each
change replaces the indexed slot, an absent override removing the element
mapper there.  Modelled from the spec: MapperBuilder.cpp is not among the
available sources. -/
def applyChanges (base : MTable) (changes : List (Nat × Option Nat)) : MTable :=
  changes.foldl (fun t c => t.set c.1 c.2) base

/-- Marking of a blueprint's build-attempted flag before template
resolution.  Modelled from the spec. -/
def markAttempted (st : BuilderState) (name : String) : BuilderState :=
  BuilderState.mk
    (st.blueprints.map fun p =>
      if p.1 = name then (p.1, { p.2 with buildAttempted := true }) else p)
    st.registry

/-- Modelled from the spec: MapperBuilder::Build(name) (MapperBuilder.cpp
is not among the available sources; behavior follows the MapperBuilder.h
documentation and spec section 4.4).  The build fails if a mapper of that
name already exists or the name names no blueprint; a blueprint whose
build-attempted flag is already set fails (this is the cycle detection);
otherwise the flag is set and the template is resolved: an empty template
name gives the all-absent base table, a template naming a registered mapper
gives that mapper's table, and a template naming a known blueprint causes
that blueprint to be built recursively first.  On success the overrides are
applied and the result is registered under the blueprint's name; failure
registers nothing.  The recursion is bounded by explicit fuel. -/
def buildAux : Nat → BuilderState → String → BuilderState × Bool
  | 0, st, _ => (st, false)
  | Nat.succ fuel, st, name =>
    if (alookup st.registry name).isSome then (st, false)
    else
      match alookup st.blueprints name with
      | none => (st, false)
      | some bp =>
        if bp.buildAttempted then (st, false)
        else
          let st1 := markAttempted st name
          let resolved : BuilderState × Option MTable :=
            if bp.templateName = "" then (st1, some emptyTable)
            else
              match alookup st1.registry bp.templateName with
              | some templateTable => (st1, some templateTable)
              | none =>
                if (alookup st1.blueprints bp.templateName).isSome then
                  let p := buildAux fuel st1 bp.templateName
                  if p.2 then (p.1, alookup p.1.registry bp.templateName) else (p.1, none)
                else (st1, none)
          match resolved with
          | (st2, none) => (st2, false)
          | (st2, some base) =>
              ({ st2 with
                  registry := (name, applyChanges base bp.changesFromTemplate) :: st2.registry },
               true)

/-- Build entry point with fuel exceeding the number of blueprints, so that
fuel exhaustion cannot occur before cycle detection.  Modelled from the
spec. -/
def Build (st : BuilderState) (name : String) : BuilderState × Bool :=
  buildAux (st.blueprints.length + 1) st name

/-- Blueprint pair naming the other blueprint as its template, used for the
cycle claim. -/
def cycleBlueprints : List (String × SBlueprint) :=
  [("A", { templateName := "B", changesFromTemplate := [], buildAttempted := false }),
   ("B", { templateName := "A", changesFromTemplate := [], buildAttempted := false })]

/-- C7: if blueprint A names B as its template and blueprint B names A as
its template, building A fails (the cycle is detected through the
per-blueprint build-attempted flag) and afterwards neither A nor B is
registered as a mapper, for any starting registry in which neither name was
registered before: failure leaves no partially built mapper registered. -/
theorem build_cycle_fails (reg : List (String × MTable))
    (hA : alookup reg "A" = none) (hB : alookup reg "B" = none) :
    (Build { blueprints := cycleBlueprints, registry := reg } "A").2 = false ∧
    alookup (Build { blueprints := cycleBlueprints, registry := reg } "A").1.registry "A"
        = none ∧
    alookup (Build { blueprints := cycleBlueprints, registry := reg } "A").1.registry "B"
        = none := by
  simp [Build, buildAux, markAttempted, cycleBlueprints, alookup, hA, hB]

/-- Witness for C7 starting from the empty registry. -/
theorem build_cycle_fails_witness :
    alookup ([] : List (String × MTable)) "A" = none ∧
    alookup ([] : List (String × MTable)) "B" = none ∧
    (Build { blueprints := cycleBlueprints, registry := [] } "A").2 = false ∧
    alookup (Build { blueprints := cycleBlueprints, registry := [] } "A").1.registry "A"
        = none ∧
    alookup (Build { blueprints := cycleBlueprints, registry := [] } "A").1.registry "B"
        = none :=
  ⟨rfl, rfl,
   (build_cycle_fails [] rfl rfl).1,
   (build_cycle_fails [] rfl rfl).2.1,
   (build_cycle_fails [] rfl rfl).2.2⟩

end Xidi
